import Mathlib

/-!
Shallow embedding of the status-workflow core of the sup-invoices-service-api
repository (src/invoices/enums.py, src/invoices/workflow.py,
src/invoices/service.py), together with theorems settling the frozen claims
about it.

Conventions of the embedding:
* Python enumerations become inductive types; `Enum(value)` lookup becomes a
  `find?` over the member list, returning `Option`.
* A function that may raise becomes `Except String _` (the error payload is
  the exception's message string, built exactly as the Python f-string does).
* The database table becomes a map `String → Option Record` keyed by
  `obj_uuid` (the primary key); a SQLAlchemy `commit` of a mutated row becomes
  a pointwise update of that map.  Nullable columns become `Option` fields.
* `datetime.now(timezone.utc)` is nondeterministic, so the current time is an
  explicit `now : Nat` argument of every operation that stamps `modified`.
* Columns that none of the claims mention (amounts, dates, party references,
  …) are abstracted into a single opaque `payload` field; the service layer
  copies it around exactly like the real column set.
-/

deriving instance DecidableEq for Except

namespace SupInvoices

/-! ### Status enumerations (src/invoices/enums.py) -/

/-- Enumeration `InvoiceStatus` from src/invoices/enums.py. -/
inductive InvoiceStatus where
  | DRAFT
  | PENDING
  | SENT
  | PAID
  | OVERDUE
  | CANCELLED
  | REFUNDED
deriving DecidableEq, Repr, Fintype

/-- The string `.value` of each `InvoiceStatus` member. -/
def InvoiceStatus.value : InvoiceStatus → String
  | .DRAFT => "Draft"
  | .PENDING => "Pending"
  | .SENT => "Sent"
  | .PAID => "Paid"
  | .OVERDUE => "Overdue"
  | .CANCELLED => "Cancelled"
  | .REFUNDED => "Refunded"

/-- The members of `InvoiceStatus`, in declaration order. -/
def InvoiceStatus.members : List InvoiceStatus :=
  [.DRAFT, .PENDING, .SENT, .PAID, .OVERDUE, .CANCELLED, .REFUNDED]

/-- Python `InvoiceStatus(s)`: the member whose `.value` equals `s`, else a
`ValueError` (here: `none`). -/
def InvoiceStatus.ofString? (s : String) : Option InvoiceStatus :=
  InvoiceStatus.members.find? (fun c => c.value == s)

/-- Enumeration `POStatus` from src/invoices/enums.py. -/
inductive POStatus where
  | PENDING
  | ACCEPTED
  | DECLINED
  | IN_PROGRESS
  | COMPLETED
  | APPROVED
  | PAID
  | CANCELLED
  | EXPIRED
  | DISPUTED
deriving DecidableEq, Repr, Fintype

/-- The string `.value` of each `POStatus` member. -/
def POStatus.value : POStatus → String
  | .PENDING => "Pending"
  | .ACCEPTED => "Accepted"
  | .DECLINED => "Declined"
  | .IN_PROGRESS => "In Progress"
  | .COMPLETED => "Completed"
  | .APPROVED => "Approved"
  | .PAID => "Paid"
  | .CANCELLED => "Cancelled"
  | .EXPIRED => "Expired"
  | .DISPUTED => "Disputed"

/-- The members of `POStatus`, in declaration order. -/
def POStatus.members : List POStatus :=
  [.PENDING, .ACCEPTED, .DECLINED, .IN_PROGRESS, .COMPLETED, .APPROVED, .PAID,
   .CANCELLED, .EXPIRED, .DISPUTED]

/-- Python `POStatus(s)`: the member whose `.value` equals `s`, else a
`ValueError` (here: `none`). -/
def POStatus.ofString? (s : String) : Option POStatus :=
  POStatus.members.find? (fun c => c.value == s)

/-! ### Transition tables (src/invoices/workflow.py) -/

/-- Table `INVOICE_STATUS_TRANSITIONS`: the dict maps every member, so we embed it
as a total function; `dict.get(current, [])` coincides with it. -/
def INVOICE_STATUS_TRANSITIONS : InvoiceStatus → List InvoiceStatus
  | .DRAFT => [.PENDING, .SENT, .CANCELLED]
  | .PENDING => [.SENT, .CANCELLED]
  | .SENT => [.PAID, .OVERDUE, .CANCELLED]
  | .PAID => [.REFUNDED]
  | .OVERDUE => [.PAID, .CANCELLED]
  | .CANCELLED => []
  | .REFUNDED => []

/-- Table `PO_STATUS_TRANSITIONS`: likewise total over `POStatus`. -/
def PO_STATUS_TRANSITIONS : POStatus → List POStatus
  | .PENDING => [.ACCEPTED, .DECLINED, .CANCELLED]
  | .ACCEPTED => [.IN_PROGRESS, .CANCELLED]
  | .IN_PROGRESS => [.COMPLETED, .CANCELLED]
  | .COMPLETED => [.APPROVED]
  | .APPROVED => [.PAID]
  | .PAID => []
  | .DECLINED => []
  | .CANCELLED => []
  | .EXPIRED => []
  | .DISPUTED => [.APPROVED, .CANCELLED]

/-! ### Validators (src/invoices/workflow.py) -/

/-- A single-quote character, as used by Python string repr and f-strings. -/
def pySQuote : String := String.singleton (Char.ofNat 39)

/-- Wrap a string in single quotes, as `{x!r}` / f-string interpolation of a
quoted value does. -/
def pyQuoted (s : String) : String := pySQuote ++ s ++ pySQuote

/-- Python `repr` of a list of strings, e.g. `['Pending', 'Sent']`. -/
def pyStrListRepr (xs : List String) : String :=
  "[" ++ String.intercalate ", " (xs.map pyQuoted) ++ "]"

/-- The message of the `InvalidStatusTransitionError` raised by
`validate_invoice_status_transition`. -/
def invoiceTransitionErrorMessage (current_status new_status : String)
    (allowed_transitions : List InvoiceStatus) : String :=
  "Cannot transition invoice from " ++ pyQuoted current_status ++ " to " ++
    pyQuoted new_status ++ ". Allowed transitions: " ++
    pyStrListRepr (allowed_transitions.map InvoiceStatus.value)

/-- The message of the `InvalidStatusTransitionError` raised by
`validate_po_status_transition`. -/
def poTransitionErrorMessage (current_status new_status : String)
    (allowed_transitions : List POStatus) : String :=
  "Cannot transition purchase order from " ++ pyQuoted current_status ++
    " to " ++ pyQuoted new_status ++ ". Allowed transitions: " ++
    pyStrListRepr (allowed_transitions.map POStatus.value)

/-- Embeds `validate_invoice_status_transition` (workflow.py, lines 71-106).
`Except.error msg` embeds `raise InvalidStatusTransitionError(msg)`.
The `try/except ValueError` around the two enum conversions becomes the
wildcard match arm: if either string fails to parse, return `True`. -/
def validate_invoice_status_transition (current_status new_status : String) :
    Except String Bool :=
  if current_status = new_status then
    .ok true
  else
    match InvoiceStatus.ofString? current_status,
        InvoiceStatus.ofString? new_status with
    | some current, some nxt =>
        let allowed_transitions := INVOICE_STATUS_TRANSITIONS current
        if nxt ∈ allowed_transitions then .ok true
        else .error
          (invoiceTransitionErrorMessage current_status new_status
            allowed_transitions)
    | _, _ => .ok true

/-- Embeds `validate_po_status_transition` (workflow.py, lines 109-142). -/
def validate_po_status_transition (current_status new_status : String) :
    Except String Bool :=
  if current_status = new_status then
    .ok true
  else
    match POStatus.ofString? current_status, POStatus.ofString? new_status with
    | some current, some nxt =>
        let allowed_transitions := PO_STATUS_TRANSITIONS current
        if nxt ∈ allowed_transitions then .ok true
        else .error
          (poTransitionErrorMessage current_status new_status
            allowed_transitions)
    | _, _ => .ok true

/-- True exactly when the validator raises (returns an error). -/
def rejects (r : Except String Bool) : Bool :=
  match r with
  | .error _ => true
  | .ok _ => false

/-! ### Service layer data model (src/invoices/models.py, src/invoices/service.py)

`Invoice.status`, `Invoice.deleted`, `Invoice.modified`, `Invoice.modified_by`
are all nullable columns (`Mapped[Optional[...]]`), hence `Option` fields.
The SQLAlchemy filter `Invoice.deleted != True` compiles to SQL three-valued
`deleted != TRUE`, which selects a row only when `deleted` is literally
`FALSE` (a NULL comparison is not true); `sqlNeTrue` embeds that filter. -/

/-- Row of the invoice table.  `payload` abstracts every column the claims do
not mention (amounts, dates, party references, `created`, `created_by`, …). -/
structure Invoice where
  obj_uuid : String
  status : Option String
  deleted : Option Bool
  modified : Option Nat
  modified_by : Option String
  payload : Nat
deriving DecidableEq, Repr

/-- Row of the purchase-order table (`is_deleted`, `approvedforpayment`,
`approveddate` are the PO-specific columns the claims touch). -/
structure PurchaseOrder where
  obj_uuid : String
  status : Option String
  is_deleted : Option Bool
  modified : Option Nat
  approvedforpayment : Option Int
  approveddate : Option Nat
  payload : Nat
deriving DecidableEq, Repr

/-- The invoice table, keyed by the primary key `obj_uuid`. -/
def InvoiceTable := String → Option Invoice

/-- The purchase-order table, keyed by `obj_uuid`. -/
def POTable := String → Option PurchaseOrder

/-- SQL `col != TRUE` under three-valued logic: only `FALSE` passes. -/
def sqlNeTrue : Option Bool → Bool
  | some b => !b
  | none => false

/-- Embeds `SELECT ... WHERE obj_uuid = uuid AND deleted != TRUE` for invoices;
this is both `get_invoice`'s row lookup (the job-table join only adds an
enrichment column that no claim mentions) and the re-select every mutating
invoice method performs. -/
def selectLiveInvoice (db : InvoiceTable) (uuid : String) : Option Invoice :=
  match db uuid with
  | some inv => if sqlNeTrue inv.deleted then some inv else none
  | none => none

/-- Embeds `SELECT ... WHERE obj_uuid = uuid AND is_deleted != TRUE` for POs. -/
def selectLivePO (db : POTable) (uuid : String) : Option PurchaseOrder :=
  match db uuid with
  | some po => if sqlNeTrue po.is_deleted then some po else none
  | none => none

/-- Committing a mutated row: overwrite the table at the row's key. -/
def commitInvoice (db : InvoiceTable) (uuid : String) (inv : Invoice) :
    InvoiceTable :=
  fun u => if u = uuid then some inv else db u

/-- Committing a mutated purchase-order row. -/
def commitPO (db : POTable) (uuid : String) (po : PurchaseOrder) : POTable :=
  fun u => if u = uuid then some po else db u

/-- Python truthiness of an optional string column: `None` and `""` are
falsy, every other string is truthy. -/
def pyTruthy : Option String → Bool
  | none => false
  | some s => s ≠ ""

/-- Python `x or default` on an optional string column. -/
def pyOr (x : Option String) (default : String) : String :=
  match x with
  | some s => if s = "" then default else s
  | none => default

/-- Typed errors raised by the service layer: `InvoiceNotFoundError` /
`PurchaseOrderNotFoundError`, and a propagated
`InvalidStatusTransitionError` (carrying the validator's message). -/
inductive ServiceError where
  | notFound (msg : String)
  | invalidTransition (msg : String)
deriving DecidableEq, Repr

/-- True exactly when a service result is a propagated
`InvalidStatusTransitionError`. -/
def rejectsTransition {α : Type} (r : Except ServiceError α) : Bool :=
  match r with
  | .error (.invalidTransition _) => true
  | _ => false

/-- The `InvoiceUpdate` payload after `model_dump(exclude_unset=True)`: a field
is `some v` when it was set in the request, `none` when unset.  `payload`
stands for all non-status updatable fields. -/
structure InvoiceUpdate where
  status : Option String := none
  payload : Option Nat := none
deriving DecidableEq, Repr

/-- The `PurchaseOrderUpdate` payload, same conventions. -/
structure PurchaseOrderUpdate where
  status : Option String := none
  payload : Option Nat := none
deriving DecidableEq, Repr

/-! ### Invoice service operations (src/invoices/service.py)

Every operation returns the pair `(result, table-after-the-call)`.  A raise
before any mutation returns the original table, mirroring the Python
control flow in which the exception propagates before any `setattr`/`commit`.
The trailing `return await self.get_invoice(uuid)` of the Python methods is
embedded as `Except.ok (selectLiveInvoice db1 uuid)` — note it is `None`
when the row was just soft-deleted, exactly as in the source. -/

namespace InvoiceService

/-- Embeds `InvoiceService.update_invoice` (service.py, lines 147-189).
`get_invoice_or_404` followed by the re-select under the same condition is
collapsed into one lookup (both queries filter on the same uuid and
`deleted != TRUE`).  The validator runs only when the request sets `status`
AND the stored status is truthy (`if "status" in update_data and
invoice.status:`); rejection propagates before any field is written. -/
def update_invoice (db : InvoiceTable) (invoice_uuid : String)
    (invoice_data : InvoiceUpdate) (user_id : String) (now : Nat) :
    Except ServiceError (Option Invoice) × InvoiceTable :=
  match selectLiveInvoice db invoice_uuid with
  | none =>
      (.error (.notFound
        ("Invoice with UUID " ++ invoice_uuid ++ " not found")), db)
  | some invoice =>
      let check : Except String Bool :=
        match invoice_data.status with
        | some s =>
            if pyTruthy invoice.status then
              validate_invoice_status_transition (pyOr invoice.status "") s
            else .ok true
        | none => .ok true
      match check with
      | .error msg => (.error (.invalidTransition msg), db)
      | .ok _ =>
          let invoice1 : Invoice :=
            { invoice with
              status :=
                match invoice_data.status with
                | some s => some s
                | none => invoice.status
              payload := invoice_data.payload.getD invoice.payload
              modified := some now
              modified_by := some user_id }
          let db1 := commitInvoice db invoice_uuid invoice1
          (.ok (selectLiveInvoice db1 invoice_uuid), db1)

/-- Embeds `InvoiceService.archive_invoice` (service.py, lines 218-249): sets the
deleted flag, force-sets `status = "Archived"`, stamps the audit fields; no
transition validation anywhere on this path. -/
def archive_invoice (db : InvoiceTable) (invoice_uuid : String)
    (user_id : String) (now : Nat) :
    Except ServiceError (Option Invoice) × InvoiceTable :=
  match selectLiveInvoice db invoice_uuid with
  | none =>
      (.error (.notFound
        ("Invoice with UUID " ++ invoice_uuid ++ " not found")), db)
  | some invoice =>
      let invoice1 : Invoice :=
        { invoice with
          deleted := some true
          status := some "Archived"
          modified := some now
          modified_by := some user_id }
      let db1 := commitInvoice db invoice_uuid invoice1
      (.ok (selectLiveInvoice db1 invoice_uuid), db1)

/-- Embeds `InvoiceService.restore_invoice` (service.py, lines 251-279): loads the
row INCLUDING deleted ones, clears the deleted flag, and rewrites `status` to
`"Draft"` only when it is exactly `"Archived"`; no transition validation. -/
def restore_invoice (db : InvoiceTable) (invoice_uuid : String)
    (user_id : String) (now : Nat) :
    Except ServiceError (Option Invoice) × InvoiceTable :=
  match db invoice_uuid with
  | none =>
      (.error (.notFound
        ("Invoice with UUID " ++ invoice_uuid ++ " not found")), db)
  | some invoice =>
      let invoice1 : Invoice :=
        { invoice with
          deleted := some false
          status :=
            if invoice.status = some "Archived" then some "Draft"
            else invoice.status
          modified := some now
          modified_by := some user_id }
      let db1 := commitInvoice db invoice_uuid invoice1
      (.ok (selectLiveInvoice db1 invoice_uuid), db1)

/-- Embeds `InvoiceService.approve_invoice` (service.py, lines 281-315): validates
`(invoice.status or "Draft", "Approved")`, then sets `status = "Approved"`
and the audit fields. -/
def approve_invoice (db : InvoiceTable) (invoice_uuid : String)
    (user_id : String) (now : Nat) :
    Except ServiceError (Option Invoice) × InvoiceTable :=
  match selectLiveInvoice db invoice_uuid with
  | none =>
      (.error (.notFound
        ("Invoice with UUID " ++ invoice_uuid ++ " not found")), db)
  | some invoice =>
      match validate_invoice_status_transition
          (pyOr invoice.status "Draft") "Approved" with
      | .error msg => (.error (.invalidTransition msg), db)
      | .ok _ =>
          let invoice1 : Invoice :=
            { invoice with
              status := some "Approved"
              modified := some now
              modified_by := some user_id }
          let db1 := commitInvoice db invoice_uuid invoice1
          (.ok (selectLiveInvoice db1 invoice_uuid), db1)

end InvoiceService

/-! ### Purchase-order service operations (src/invoices/service.py) -/

namespace PurchaseOrderService

/-- Embeds `PurchaseOrderService.update_purchase_order` (service.py, lines
1046-1089).  Same validation guard as the invoice update (`if "status" in
update_data and po.status:`); the PO update stamps only `modified` (no
`modified_by` column write in the source). -/
def update_purchase_order (db : POTable) (po_uuid : String)
    (po_data : PurchaseOrderUpdate) (user_id : String) (now : Nat) :
    Except ServiceError (Option PurchaseOrder) × POTable :=
  match selectLivePO db po_uuid with
  | none =>
      (.error (.notFound
        ("Purchase order with UUID " ++ po_uuid ++ " not found")), db)
  | some po =>
      let check : Except String Bool :=
        match po_data.status with
        | some s =>
            if pyTruthy po.status then
              validate_po_status_transition (pyOr po.status "") s
            else .ok true
        | none => .ok true
      match check with
      | .error msg => (.error (.invalidTransition msg), db)
      | .ok _ =>
          let po1 : PurchaseOrder :=
            { po with
              status :=
                match po_data.status with
                | some s => some s
                | none => po.status
              payload := po_data.payload.getD po.payload
              modified := some now }
          let db1 := commitPO db po_uuid po1
          (.ok (selectLivePO db1 po_uuid), db1)

/-- Embeds `PurchaseOrderService.delete_purchase_order` (service.py, lines
1091-1116): soft delete, no transition validation. -/
def delete_purchase_order (db : POTable) (po_uuid : String)
    (user_id : String) (now : Nat) : Except ServiceError Unit × POTable :=
  match selectLivePO db po_uuid with
  | none =>
      (.error (.notFound
        ("Purchase order with UUID " ++ po_uuid ++ " not found")), db)
  | some po =>
      let po1 : PurchaseOrder :=
        { po with is_deleted := some true, modified := some now }
      (.ok (), commitPO db po_uuid po1)

/-- Embeds `PurchaseOrderService.archive_purchase_order` (service.py, lines
1118-1148). -/
def archive_purchase_order (db : POTable) (po_uuid : String)
    (user_id : String) (now : Nat) :
    Except ServiceError (Option PurchaseOrder) × POTable :=
  match selectLivePO db po_uuid with
  | none =>
      (.error (.notFound
        ("Purchase order with UUID " ++ po_uuid ++ " not found")), db)
  | some po =>
      let po1 : PurchaseOrder :=
        { po with
          is_deleted := some true
          status := some "Archived"
          modified := some now }
      let db1 := commitPO db po_uuid po1
      (.ok (selectLivePO db1 po_uuid), db1)

/-- Embeds `PurchaseOrderService.restore_purchase_order` (service.py, lines
1150-1179): loads including deleted rows; `"Archived"` is rewritten to
`"Pending"`, any other status is kept. -/
def restore_purchase_order (db : POTable) (po_uuid : String)
    (user_id : String) (now : Nat) :
    Except ServiceError (Option PurchaseOrder) × POTable :=
  match db po_uuid with
  | none =>
      (.error (.notFound
        ("Purchase order with UUID " ++ po_uuid ++ " not found")), db)
  | some po =>
      let po1 : PurchaseOrder :=
        { po with
          is_deleted := some false
          status :=
            if po.status = some "Archived" then some "Pending" else po.status
          modified := some now }
      let db1 := commitPO db po_uuid po1
      (.ok (selectLivePO db1 po_uuid), db1)

/-- Embeds `PurchaseOrderService.approve_purchase_order` (service.py, lines
1181-1218): validates `(po.status or "Pending", "Approved")`, then sets
`approvedforpayment = 1`, `approveddate`, `status = "Approved"`,
`modified`. -/
def approve_purchase_order (db : POTable) (po_uuid : String)
    (user_id : String) (now : Nat) :
    Except ServiceError (Option PurchaseOrder) × POTable :=
  match selectLivePO db po_uuid with
  | none =>
      (.error (.notFound
        ("Purchase order with UUID " ++ po_uuid ++ " not found")), db)
  | some po =>
      match validate_po_status_transition
          (pyOr po.status "Pending") "Approved" with
      | .error msg => (.error (.invalidTransition msg), db)
      | .ok _ =>
          let po1 : PurchaseOrder :=
            { po with
              approvedforpayment := some 1
              approveddate := some now
              status := some "Approved"
              modified := some now }
          let db1 := commitPO db po_uuid po1
          (.ok (selectLivePO db1 po_uuid), db1)

end PurchaseOrderService

/-! ### Batch operations (src/invoices/service.py, lines 561-633)

`batch_approve_purchase_orders` and `batch_delete_purchase_orders` are
methods of `InvoiceService`, yet their loop bodies call
`self.approve_purchase_order` / `self.delete_purchase_order` — attributes
that `InvoiceService` does not define (they exist only on
`PurchaseOrderService`).  At run time the attribute lookup inside the `try`
raises `AttributeError`, which `except Exception as e` converts into a
per-item failure entry, so every iteration takes the failure branch and the
database is never touched. -/

/-- One entry of the batch `results` list. -/
structure BatchItemResult where
  po_uuid : String
  status : String
  error : Option String
deriving DecidableEq, Repr

/-- The dict returned by the batch methods. -/
structure BatchResult where
  success_count : Nat
  failure_count : Nat
  results : List BatchItemResult
deriving DecidableEq, Repr

/-- The text `str(e)` for the `AttributeError` raised by
`self.approve_purchase_order` on an `InvoiceService` instance. -/
def batchApproveAttributeError : String :=
  pyQuoted "InvoiceService" ++ " object has no attribute " ++
    pyQuoted "approve_purchase_order"

namespace InvoiceService

/-- Embeds `InvoiceService.batch_approve_purchase_orders` (service.py, lines
561-596).  The loop is a fold; each iteration tries
`self.approve_purchase_order(po_uuid, user_id)`, whose attribute lookup
raises `AttributeError` (no such method on `InvoiceService`), caught by
`except Exception as e` and recorded as a failure entry with `str(e)`. -/
def batch_approve_purchase_orders (db : POTable) (po_uuids : List String)
    (user_id : String) (now : Nat) : BatchResult × POTable :=
  let step : BatchResult → String → BatchResult :=
    fun acc po_uuid =>
      { success_count := acc.success_count
        failure_count := acc.failure_count + 1
        results := acc.results ++
          [{ po_uuid := po_uuid, status := "failed",
             error := some batchApproveAttributeError }] }
  (po_uuids.foldl step
    { success_count := 0, failure_count := 0, results := [] }, db)

end InvoiceService

/-! ### Concrete fixtures (used by witnesses and counterexamples) -/

/-- A live invoice in status `"Draft"`. -/
def draftInvoice : Invoice :=
  { obj_uuid := "inv-1", status := some "Draft", deleted := some false,
    modified := none, modified_by := none, payload := 0 }

/-- A live invoice whose `status` column is NULL. -/
def nullStatusInvoice : Invoice :=
  { obj_uuid := "inv-2", status := none, deleted := some false,
    modified := none, modified_by := none, payload := 0 }

/-- A live invoice in the terminal status `"Cancelled"`. -/
def cancelledInvoice : Invoice :=
  { obj_uuid := "inv-3", status := some "Cancelled", deleted := some false,
    modified := none, modified_by := none, payload := 0 }

/-- A soft-deleted invoice in status `"Paid"`. -/
def paidDeletedInvoice : Invoice :=
  { obj_uuid := "inv-4", status := some "Paid", deleted := some true,
    modified := none, modified_by := none, payload := 0 }

/-- A small invoice table holding the four fixtures. -/
def invoiceFixtureDB : InvoiceTable := fun u =>
  if u = "inv-1" then some draftInvoice
  else if u = "inv-2" then some nullStatusInvoice
  else if u = "inv-3" then some cancelledInvoice
  else if u = "inv-4" then some paidDeletedInvoice
  else none

/-- A live purchase order in status `"Pending"`. -/
def pendingPO : PurchaseOrder :=
  { obj_uuid := "po-1", status := some "Pending", is_deleted := some false,
    modified := none, approvedforpayment := none, approveddate := none,
    payload := 0 }

/-- A live purchase order in status `"Completed"` (so `Completed → Approved`
is a legal transition). -/
def completedPO : PurchaseOrder :=
  { obj_uuid := "po-2", status := some "Completed", is_deleted := some false,
    modified := none, approvedforpayment := none, approveddate := none,
    payload := 0 }

/-- A live purchase order in the terminal status `"Paid"`. -/
def paidPO : PurchaseOrder :=
  { obj_uuid := "po-3", status := some "Paid", is_deleted := some false,
    modified := none, approvedforpayment := none, approveddate := none,
    payload := 0 }

/-- A soft-deleted purchase order in status `"Completed"`. -/
def deletedCompletedPO : PurchaseOrder :=
  { obj_uuid := "po-4", status := some "Completed", is_deleted := some true,
    modified := none, approvedforpayment := none, approveddate := none,
    payload := 0 }

/-- A small purchase-order table holding the four fixtures. -/
def poFixtureDB : POTable := fun u =>
  if u = "po-1" then some pendingPO
  else if u = "po-2" then some completedPO
  else if u = "po-3" then some paidPO
  else if u = "po-4" then some deletedCompletedPO
  else none

/-! ### Helper lemmas -/

/-- A string parsing to an `InvoiceStatus` member is that member's value. -/
theorem invoice_eq_value_of_parse {s : String} {c : InvoiceStatus}
    (h : InvoiceStatus.ofString? s = some c) : s = c.value := by
  have hp := List.find?_some h
  exact (eq_of_beq hp).symm

/-- A string parsing to a `POStatus` member is that member's value. -/
theorem po_eq_value_of_parse {s : String} {c : POStatus}
    (h : POStatus.ofString? s = some c) : s = c.value := by
  have hp := List.find?_some h
  exact (eq_of_beq hp).symm

/-- Because `"Approved"` is not a member of `InvoiceStatus`, the transition
validator always takes the permissive branch (or the reflexive one). -/
theorem validate_invoice_to_approved (x : String) :
    validate_invoice_status_transition x "Approved" = Except.ok true := by
  unfold validate_invoice_status_transition
  by_cases h : x = "Approved"
  · simp [h]
  · rw [if_neg h]
    have happ : InvoiceStatus.ofString? "Approved" = none := by decide
    rw [happ]
    cases hs : InvoiceStatus.ofString? x <;> simp

/-- Exhaustive check behind C1, invoice half: on two distinct recognized
statuses the validator's verdict is exactly the transition table's. -/
theorem invoice_table_verdict :
    ∀ c r : InvoiceStatus, c.value ≠ r.value →
      validate_invoice_status_transition c.value r.value =
        (if r ∈ INVOICE_STATUS_TRANSITIONS c then Except.ok true
         else Except.error (invoiceTransitionErrorMessage c.value r.value
           (INVOICE_STATUS_TRANSITIONS c))) := by decide

/-- Exhaustive check behind C1, purchase-order half. -/
theorem po_table_verdict :
    ∀ c r : POStatus, c.value ≠ r.value →
      validate_po_status_transition c.value r.value =
        (if r ∈ PO_STATUS_TRANSITIONS c then Except.ok true
         else Except.error (poTransitionErrorMessage c.value r.value
           (PO_STATUS_TRANSITIONS c))) := by decide

/-- Exhaustive check behind C3 (amended), invoice half: from a terminal
state, any different recognized status is rejected. -/
theorem invoice_terminal_rejects :
    ∀ c r : InvoiceStatus, INVOICE_STATUS_TRANSITIONS c = [] → c ≠ r →
      rejects (validate_invoice_status_transition c.value r.value) = true := by
  decide

/-- Exhaustive check behind C3 (amended), purchase-order half. -/
theorem po_terminal_rejects :
    ∀ c r : POStatus, PO_STATUS_TRANSITIONS c = [] → c ≠ r →
      rejects (validate_po_status_transition c.value r.value) = true := by
  decide

/-! ### Claim theorems -/

/-- C1: for every pair of distinct statuses that both parse into the document
type's enumeration, the validator returns `True` exactly when the requested
status is in the transition table's successor list for the current one, and
otherwise raises `InvalidStatusTransitionError` whose message identifies the
current state, the requested state, and the full list of allowed next states
(the message is the exact f-string of workflow.py). -/
theorem claim1_table_governs_recognized_pairs :
    (∀ (s t : String) (c r : InvoiceStatus),
      InvoiceStatus.ofString? s = some c → InvoiceStatus.ofString? t = some r →
      s ≠ t →
      validate_invoice_status_transition s t =
        (if r ∈ INVOICE_STATUS_TRANSITIONS c then Except.ok true
         else Except.error (invoiceTransitionErrorMessage s t
           (INVOICE_STATUS_TRANSITIONS c)))) ∧
    (∀ (s t : String) (c r : POStatus),
      POStatus.ofString? s = some c → POStatus.ofString? t = some r →
      s ≠ t →
      validate_po_status_transition s t =
        (if r ∈ PO_STATUS_TRANSITIONS c then Except.ok true
         else Except.error (poTransitionErrorMessage s t
           (PO_STATUS_TRANSITIONS c)))) := by
  constructor
  · intro s t c r hs ht hne
    have hs' := invoice_eq_value_of_parse hs
    have ht' := invoice_eq_value_of_parse ht
    subst hs'; subst ht'
    exact invoice_table_verdict c r hne
  · intro s t c r hs ht hne
    have hs' := po_eq_value_of_parse hs
    have ht' := po_eq_value_of_parse ht
    subst hs'; subst ht'
    exact po_table_verdict c r hne

/-- Witness for C1: `Draft → Paid` is rejected with the exact diagnostic
message, `Pending → Accepted` is allowed. -/
theorem claim1_witness :
    validate_invoice_status_transition "Draft" "Paid" =
      Except.error (invoiceTransitionErrorMessage "Draft" "Paid"
        [InvoiceStatus.PENDING, InvoiceStatus.SENT,
         InvoiceStatus.CANCELLED]) ∧
    validate_po_status_transition "Pending" "Accepted" = Except.ok true := by
  constructor
  · have h := claim1_table_governs_recognized_pairs.1 "Draft" "Paid"
      InvoiceStatus.DRAFT InvoiceStatus.PAID (by decide) (by decide)
      (by decide)
    exact h.trans (by decide)
  · have h := claim1_table_governs_recognized_pairs.2 "Pending" "Accepted"
      POStatus.PENDING POStatus.ACCEPTED (by decide) (by decide) (by decide)
    exact h.trans (by decide)

/-- C2: `"Approved"` is not an `InvoiceStatus` member, so
`validate_invoice_status_transition(x, "Approved")` returns `True` for every
string `x`, and consequently `approve_invoice`'s transition check never
rejects for any current invoice status. -/
theorem claim2_approve_invoice_never_rejects :
    (∀ x : String,
      validate_invoice_status_transition x "Approved" = Except.ok true) ∧
    (∀ (db : InvoiceTable) (invoice_uuid user_id : String) (now : Nat),
      rejectsTransition
        (InvoiceService.approve_invoice db invoice_uuid user_id now).1 =
      false) := by
  refine ⟨validate_invoice_to_approved, ?_⟩
  intro db invoice_uuid user_id now
  unfold InvoiceService.approve_invoice
  cases hsel : selectLiveInvoice db invoice_uuid with
  | none => simp [rejectsTransition]
  | some invoice =>
      simp [validate_invoice_to_approved, rejectsTransition]

/-- C3 is refuted by the code: from the terminal state `"Cancelled"` the
unrecognized requested status `"Archived"` is allowed (permissive fallback),
not rejected. -/
theorem claim3_counterexample :
    INVOICE_STATUS_TRANSITIONS InvoiceStatus.CANCELLED = [] ∧
    ("Archived" : String) ≠ "Cancelled" ∧
    validate_invoice_status_transition "Cancelled" "Archived" =
      Except.ok true := by decide

/-- C3 (amended): for every terminal state and every *recognized* requested
status different from it, the validator rejects; an unrecognized requested
string is instead allowed by the permissive fallback. -/
theorem claim3_amended_terminal_rejects_recognized
    (c r : InvoiceStatus) (p q : POStatus) :
    (INVOICE_STATUS_TRANSITIONS c = [] → c ≠ r →
      rejects (validate_invoice_status_transition c.value r.value) = true) ∧
    (PO_STATUS_TRANSITIONS p = [] → p ≠ q →
      rejects (validate_po_status_transition p.value q.value) = true) :=
  ⟨fun h1 h2 => invoice_terminal_rejects c r h1 h2,
   fun h1 h2 => po_terminal_rejects p q h1 h2⟩

/-- Witness for C3 (amended): `Cancelled → Paid` (invoice) and
`Paid → Approved` (purchase order) are rejected. -/
theorem claim3_witness :
    rejects (validate_invoice_status_transition "Cancelled" "Paid") = true ∧
    rejects (validate_po_status_transition "Paid" "Approved") = true := by
  have h := claim3_amended_terminal_rejects_recognized
    InvoiceStatus.CANCELLED InvoiceStatus.PAID POStatus.PAID POStatus.APPROVED
  exact ⟨h.1 rfl (by decide), h.2 rfl (by decide)⟩

/-- C6: on a pair of distinct statuses where (at least) one side fails enum
parsing, both validators return `True` and never raise. -/
theorem claim6_unrecognized_always_allowed (s t : String) (hne : s ≠ t) :
    (InvoiceStatus.ofString? s = none ∨ InvoiceStatus.ofString? t = none →
      validate_invoice_status_transition s t = Except.ok true) ∧
    (POStatus.ofString? s = none ∨ POStatus.ofString? t = none →
      validate_po_status_transition s t = Except.ok true) := by
  constructor
  · intro h
    unfold validate_invoice_status_transition
    rw [if_neg hne]
    rcases h with h | h <;>
      cases hs : InvoiceStatus.ofString? s <;>
        cases ht : InvoiceStatus.ofString? t <;> simp_all
  · intro h
    unfold validate_po_status_transition
    rw [if_neg hne]
    rcases h with h | h <;>
      cases hs : POStatus.ofString? s <;>
        cases ht : POStatus.ofString? t <;> simp_all

/-- Witness for C6: `"Archived"` parses into neither enumeration, so both
validators allow `("Archived", "Draft")`. -/
theorem claim6_witness :
    validate_invoice_status_transition "Archived" "Draft" = Except.ok true ∧
    validate_po_status_transition "Archived" "Draft" = Except.ok true := by
  have h := claim6_unrecognized_always_allowed "Archived" "Draft" (by decide)
  exact ⟨h.1 (Or.inl (by decide)), h.2 (Or.inl (by decide))⟩

/-- C7: the reflexive no-op `validate_transition(s, s)` is allowed for every
string `s`, recognized or not. -/
theorem claim7_reflexive_always_allowed (s : String) :
    validate_invoice_status_transition s s = Except.ok true ∧
    validate_po_status_transition s s = Except.ok true := by
  constructor <;>
    simp [validate_invoice_status_transition, validate_po_status_transition]

/-- C4 is refuted by the code: updating an invoice whose stored `status` is
NULL with a new status `"Paid"` succeeds without any validation, although the
claim requires validation against the default `"Draft"` — and
`Draft → Paid` is rejected by the validator, so the claimed behaviour would
have propagated a rejection. -/
theorem claim4_counterexample :
    nullStatusInvoice.status = none ∧
    rejectsTransition (InvoiceService.update_invoice invoiceFixtureDB "inv-2"
      { status := some "Paid" } "user-1" 7).1 = false ∧
    rejects (validate_invoice_status_transition "Draft" "Paid") = true := by
  decide

/-- C4 (amended): approve operations invoke the validator with
`(stored status or the type default, "Approved")`; update operations invoke
it with `(stored status, requested status)` only when the request sets a
status AND the stored status is set and non-empty — an update of a document
whose stored status is NULL (or `""`) is applied without any transition
validation. -/
theorem claim4_amended_validator_invocation :
    (∀ (db : InvoiceTable) (uuid : String) (upd : InvoiceUpdate)
        (u : String) (n : Nat) (inv : Invoice) (s cs : String),
      selectLiveInvoice db uuid = some inv →
      upd.status = some s → inv.status = some cs → cs ≠ "" →
      ∀ m, ((InvoiceService.update_invoice db uuid upd u n).1 =
          Except.error (ServiceError.invalidTransition m) ↔
        validate_invoice_status_transition cs s = Except.error m)) ∧
    (∀ (db : InvoiceTable) (uuid : String) (upd : InvoiceUpdate)
        (u : String) (n : Nat) (inv : Invoice),
      selectLiveInvoice db uuid = some inv →
      pyTruthy inv.status = false →
      rejectsTransition (InvoiceService.update_invoice db uuid upd u n).1 =
        false) ∧
    (∀ (db : POTable) (uuid : String) (upd : PurchaseOrderUpdate)
        (u : String) (n : Nat) (po : PurchaseOrder) (s cs : String),
      selectLivePO db uuid = some po →
      upd.status = some s → po.status = some cs → cs ≠ "" →
      ∀ m, ((PurchaseOrderService.update_purchase_order db uuid upd u n).1 =
          Except.error (ServiceError.invalidTransition m) ↔
        validate_po_status_transition cs s = Except.error m)) ∧
    (∀ (db : POTable) (uuid : String) (upd : PurchaseOrderUpdate)
        (u : String) (n : Nat) (po : PurchaseOrder),
      selectLivePO db uuid = some po →
      pyTruthy po.status = false →
      rejectsTransition
        (PurchaseOrderService.update_purchase_order db uuid upd u n).1 =
        false) ∧
    (∀ (db : InvoiceTable) (uuid u : String) (n : Nat) (inv : Invoice),
      selectLiveInvoice db uuid = some inv →
      ∀ m, ((InvoiceService.approve_invoice db uuid u n).1 =
          Except.error (ServiceError.invalidTransition m) ↔
        validate_invoice_status_transition (pyOr inv.status "Draft")
          "Approved" = Except.error m)) ∧
    (∀ (db : POTable) (uuid u : String) (n : Nat) (po : PurchaseOrder),
      selectLivePO db uuid = some po →
      ∀ m, ((PurchaseOrderService.approve_purchase_order db uuid u n).1 =
          Except.error (ServiceError.invalidTransition m) ↔
        validate_po_status_transition (pyOr po.status "Pending")
          "Approved" = Except.error m)) := by
  refine ⟨?_, ?_, ?_, ?_, ?_, ?_⟩
  · intro db uuid upd u n inv s cs hsel hupd hst hcs m
    unfold InvoiceService.update_invoice
    simp only [hsel, hupd, hst, pyTruthy, pyOr]
    rw [if_pos (by simpa using hcs), if_neg hcs]
    cases hv : validate_invoice_status_transition cs s <;> simp [hv]
  · intro db uuid upd u n inv hsel htr
    unfold InvoiceService.update_invoice
    simp only [hsel, htr]
    cases hupd : upd.status <;> simp [hupd, htr, rejectsTransition]
  · intro db uuid upd u n po s cs hsel hupd hst hcs m
    unfold PurchaseOrderService.update_purchase_order
    simp only [hsel, hupd, hst, pyTruthy, pyOr]
    rw [if_pos (by simpa using hcs), if_neg hcs]
    cases hv : validate_po_status_transition cs s <;> simp [hv]
  · intro db uuid upd u n po hsel htr
    unfold PurchaseOrderService.update_purchase_order
    simp only [hsel, htr]
    cases hupd : upd.status <;> simp [hupd, htr, rejectsTransition]
  · intro db uuid u n inv hsel m
    unfold InvoiceService.approve_invoice
    simp only [hsel, validate_invoice_to_approved]
    simp
  · intro db uuid u n po hsel m
    unfold PurchaseOrderService.approve_purchase_order
    simp only [hsel]
    cases hv : validate_po_status_transition (pyOr po.status "Pending")
        "Approved" <;> simp [hv]

/-- Witness for C4 (amended): updating the `"Cancelled"` invoice fixture to
`"Paid"` propagates exactly the validator's rejection message. -/
theorem claim4_witness :
    (InvoiceService.update_invoice invoiceFixtureDB "inv-3"
       { status := some "Paid" } "user-1" 3).1 =
      Except.error (ServiceError.invalidTransition
        (invoiceTransitionErrorMessage "Cancelled" "Paid" [])) :=
  (claim4_amended_validator_invocation.1 invoiceFixtureDB "inv-3"
    { status := some "Paid" } "user-1" 3 cancelledInvoice "Paid" "Cancelled"
    (by decide) rfl rfl (by decide) _).mpr (by decide)

/-- C5: whenever an update or approve operation ends in an error (in
particular a propagated `InvalidStatusTransitionError`), the table is
returned exactly as it was — validate-before-write: no record is mutated
on rejection, and the error is the operation's result. -/
theorem claim5_no_mutation_on_rejection :
    (∀ (db : InvoiceTable) (uuid : String) (upd : InvoiceUpdate)
        (u : String) (n : Nat) (e : ServiceError),
      (InvoiceService.update_invoice db uuid upd u n).1 = Except.error e →
      (InvoiceService.update_invoice db uuid upd u n).2 = db) ∧
    (∀ (db : InvoiceTable) (uuid u : String) (n : Nat) (e : ServiceError),
      (InvoiceService.approve_invoice db uuid u n).1 = Except.error e →
      (InvoiceService.approve_invoice db uuid u n).2 = db) ∧
    (∀ (db : POTable) (uuid : String) (upd : PurchaseOrderUpdate)
        (u : String) (n : Nat) (e : ServiceError),
      (PurchaseOrderService.update_purchase_order db uuid upd u n).1 =
        Except.error e →
      (PurchaseOrderService.update_purchase_order db uuid upd u n).2 = db) ∧
    (∀ (db : POTable) (uuid u : String) (n : Nat) (e : ServiceError),
      (PurchaseOrderService.approve_purchase_order db uuid u n).1 =
        Except.error e →
      (PurchaseOrderService.approve_purchase_order db uuid u n).2 = db) := by
  refine ⟨?_, ?_, ?_, ?_⟩
  · intro db uuid upd u n e h
    unfold InvoiceService.update_invoice at h ⊢
    cases hsel : selectLiveInvoice db uuid
    case none => simp [hsel]
    case some inv =>
      simp only [hsel] at h ⊢
      split at h <;> simp_all
  · intro db uuid u n e h
    unfold InvoiceService.approve_invoice at h ⊢
    cases hsel : selectLiveInvoice db uuid
    case none => simp [hsel]
    case some inv =>
      simp only [hsel] at h ⊢
      split at h <;> simp_all
  · intro db uuid upd u n e h
    unfold PurchaseOrderService.update_purchase_order at h ⊢
    cases hsel : selectLivePO db uuid
    case none => simp [hsel]
    case some po =>
      simp only [hsel] at h ⊢
      split at h <;> simp_all
  · intro db uuid u n e h
    unfold PurchaseOrderService.approve_purchase_order at h ⊢
    cases hsel : selectLivePO db uuid
    case none => simp [hsel]
    case some po =>
      simp only [hsel] at h ⊢
      split at h <;> simp_all

/-- Witness for C5: the rejected `Cancelled → Paid` invoice update and the
rejected approve of the terminal-`"Paid"` purchase order both leave their
tables untouched. -/
theorem claim5_witness :
    (InvoiceService.update_invoice invoiceFixtureDB "inv-3"
       { status := some "Paid" } "user-1" 3).2 = invoiceFixtureDB ∧
    (PurchaseOrderService.approve_purchase_order poFixtureDB "po-3"
       "user-1" 3).2 = poFixtureDB :=
  ⟨claim5_no_mutation_on_rejection.1 invoiceFixtureDB "inv-3"
      { status := some "Paid" } "user-1" 3
      (ServiceError.invalidTransition
        (invoiceTransitionErrorMessage "Cancelled" "Paid" [])) (by decide),
   claim5_no_mutation_on_rejection.2.2.2 poFixtureDB "po-3" "user-1" 3
      (ServiceError.invalidTransition
        (poTransitionErrorMessage "Paid" "Approved" [])) (by decide)⟩

/-- C8: archiving a live `"Draft"` invoice stores
`(status, deleted) = ("Archived", true)`; restoring it afterwards stores
`("Draft", false)` — an exact round trip on that pair.  The same holds for a
live `"Pending"` purchase order.  Neither operation ever consults the
transition validator: neither can produce an `InvalidStatusTransitionError`,
for any table and any stored status. -/
theorem claim8_archive_restore_roundtrip :
    (∀ (db : InvoiceTable) (uuid u1 u2 : String) (n1 n2 : Nat)
        (inv : Invoice),
      selectLiveInvoice db uuid = some inv → inv.status = some "Draft" →
      (((InvoiceService.archive_invoice db uuid u1 n1).2 uuid).map
          Invoice.status = some (some "Archived") ∧
       ((InvoiceService.archive_invoice db uuid u1 n1).2 uuid).map
          Invoice.deleted = some (some true)) ∧
      (((InvoiceService.restore_invoice
            (InvoiceService.archive_invoice db uuid u1 n1).2 uuid u2 n2).2
          uuid).map Invoice.status = some (some "Draft") ∧
       ((InvoiceService.restore_invoice
            (InvoiceService.archive_invoice db uuid u1 n1).2 uuid u2 n2).2
          uuid).map Invoice.deleted = some (some false))) ∧
    (∀ (db : POTable) (uuid u1 u2 : String) (n1 n2 : Nat)
        (po : PurchaseOrder),
      selectLivePO db uuid = some po → po.status = some "Pending" →
      (((PurchaseOrderService.archive_purchase_order db uuid u1 n1).2
          uuid).map PurchaseOrder.status = some (some "Archived") ∧
       ((PurchaseOrderService.archive_purchase_order db uuid u1 n1).2
          uuid).map PurchaseOrder.is_deleted = some (some true)) ∧
      (((PurchaseOrderService.restore_purchase_order
            (PurchaseOrderService.archive_purchase_order db uuid u1 n1).2
            uuid u2 n2).2 uuid).map PurchaseOrder.status =
          some (some "Pending") ∧
       ((PurchaseOrderService.restore_purchase_order
            (PurchaseOrderService.archive_purchase_order db uuid u1 n1).2
            uuid u2 n2).2 uuid).map PurchaseOrder.is_deleted =
          some (some false))) ∧
    (∀ (db : InvoiceTable) (uuid u : String) (n : Nat),
      rejectsTransition (InvoiceService.archive_invoice db uuid u n).1 =
        false ∧
      rejectsTransition (InvoiceService.restore_invoice db uuid u n).1 =
        false) ∧
    (∀ (db : POTable) (uuid u : String) (n : Nat),
      rejectsTransition
        (PurchaseOrderService.archive_purchase_order db uuid u n).1 = false ∧
      rejectsTransition
        (PurchaseOrderService.restore_purchase_order db uuid u n).1 =
        false) := by
  refine ⟨?_, ?_, ?_, ?_⟩
  · intro db uuid u1 u2 n1 n2 inv hsel hst
    unfold InvoiceService.archive_invoice InvoiceService.restore_invoice
    simp [hsel, commitInvoice]
  · intro db uuid u1 u2 n1 n2 po hsel hst
    unfold PurchaseOrderService.archive_purchase_order
      PurchaseOrderService.restore_purchase_order
    simp [hsel, commitPO]
  · intro db uuid u n
    constructor
    · unfold InvoiceService.archive_invoice
      cases hsel : selectLiveInvoice db uuid <;>
        simp [hsel, rejectsTransition]
    · unfold InvoiceService.restore_invoice
      cases hsel : db uuid <;> simp [hsel, rejectsTransition]
  · intro db uuid u n
    constructor
    · unfold PurchaseOrderService.archive_purchase_order
      cases hsel : selectLivePO db uuid <;> simp [hsel, rejectsTransition]
    · unfold PurchaseOrderService.restore_purchase_order
      cases hsel : db uuid <;> simp [hsel, rejectsTransition]

/-- Witness for C8: the concrete round trips on the `"Draft"` invoice and
`"Pending"` purchase-order fixtures. -/
theorem claim8_witness :
    ((InvoiceService.restore_invoice
        (InvoiceService.archive_invoice invoiceFixtureDB "inv-1" "u" 1).2
        "inv-1" "u" 2).2 "inv-1").map Invoice.status = some (some "Draft") ∧
    ((PurchaseOrderService.restore_purchase_order
        (PurchaseOrderService.archive_purchase_order poFixtureDB "po-1"
          "u" 1).2 "po-1" "u" 2).2 "po-1").map PurchaseOrder.status =
      some (some "Pending") := by
  have h1 := claim8_archive_restore_roundtrip.1 invoiceFixtureDB "inv-1"
    "u" "u" 1 2 draftInvoice (by decide) rfl
  have h2 := claim8_archive_restore_roundtrip.2.1 poFixtureDB "po-1"
    "u" "u" 1 2 pendingPO (by decide) rfl
  exact ⟨h1.2.1, h2.2.1⟩

/-- C9 names behaviour the code does not have: the batch loop of
`InvoiceService.batch_approve_purchase_orders` calls
`self.approve_purchase_order`, an attribute `InvoiceService` does not
define, so every item — including `"po-2"`, whose `Completed → Approved`
single-item approval succeeds — is recorded as failed with the
`AttributeError` text, and `success_count` is `0` instead of the claimed
`N - M = 1`. -/
theorem claim9_batch_approve_always_fails :
    (InvoiceService.batch_approve_purchase_orders poFixtureDB ["po-2"]
        "user-1" 4).1 =
      { success_count := 0, failure_count := 1,
        results := [{ po_uuid := "po-2", status := "failed",
                      error := some batchApproveAttributeError }] } ∧
    (PurchaseOrderService.approve_purchase_order poFixtureDB "po-2"
        "user-1" 4).1 =
      Except.ok (some { completedPO with
        approvedforpayment := some 1, approveddate := some 4,
        status := some "Approved", modified := some 4 }) := by
  decide

/-- C10: restoring any document whose stored status is not `"Archived"`
clears the deleted flag, stamps the audit fields, and leaves every other
field — in particular `status` — unchanged. -/
theorem claim10_restore_preserves_status :
    (∀ (db : InvoiceTable) (uuid u : String) (n : Nat) (inv : Invoice),
      db uuid = some inv → inv.status ≠ some "Archived" →
      (InvoiceService.restore_invoice db uuid u n).2 uuid =
        some { inv with
          deleted := some false
          modified := some n
          modified_by := some u }) ∧
    (∀ (db : POTable) (uuid u : String) (n : Nat) (po : PurchaseOrder),
      db uuid = some po → po.status ≠ some "Archived" →
      (PurchaseOrderService.restore_purchase_order db uuid u n).2 uuid =
        some { po with is_deleted := some false, modified := some n }) := by
  constructor
  · intro db uuid u n inv hdb hne
    unfold InvoiceService.restore_invoice
    simp [hdb, hne, commitInvoice]
  · intro db uuid u n po hdb hne
    unfold PurchaseOrderService.restore_purchase_order
    simp [hdb, hne, commitPO]

/-- Witness for C10: restoring the soft-deleted `"Paid"` invoice fixture
and the soft-deleted `"Completed"` purchase-order fixture keeps their
statuses. -/
theorem claim10_witness :
    (InvoiceService.restore_invoice invoiceFixtureDB "inv-4" "u" 9).2
        "inv-4" =
      some { paidDeletedInvoice with
        deleted := some false
        modified := some 9
        modified_by := some "u" } ∧
    (PurchaseOrderService.restore_purchase_order poFixtureDB "po-4"
        "u" 9).2 "po-4" =
      some { deletedCompletedPO with
        is_deleted := some false
        modified := some 9 } :=
  ⟨claim10_restore_preserves_status.1 invoiceFixtureDB "inv-4" "u" 9
      paidDeletedInvoice (by decide) (by decide),
   claim10_restore_preserves_status.2 poFixtureDB "po-4" "u" 9
      deletedCompletedPO (by decide) (by decide)⟩

end SupInvoices
